import Mathlib

/-!
Shallow embedding of the intelligent to-do list application (tasks, habits,
goals, analytics) and proofs about its behaviour.

Modelling conventions, used throughout:
* Python numbers: ids are `Int`, counts are `Nat`, Python floats are modelled
  as rationals `ℚ` (the quantities involved are sums, divisions and roundings
  of small integers, where float and rational arithmetic agree on everything
  stated here).
* `round(x, 2)` is modelled by `round2` below via the mathematical `round`
  (half up); Python rounds halves to even, but no statement in this file
  depends on the behaviour at exact ties.
* Python dictionaries that the code builds by key assignment are modelled as
  insertion-ordered association lists with an update-in-place `upsert`,
  matching dict insertion-order semantics.
* Optional fields (keys that may be absent or `None`) are `Option` values;
  Python truthiness tests on them are modelled by explicit helper functions.
* The ambient clock and the standard-library date parser and formatter are
  taken as parameters (`now`, `today`, `parse`, `isoOf`, `monthKeyOf`): the
  embedded functions are parametric in them exactly where the source calls
  `datetime.now()`, `date.today()`, `fromisoformat` and `strftime`.
* Code that can raise a `TypeError` (comparison of a dict with a string)
  returns `Except PyErr`.
-/

/-- Errors that the embedded Python fragments can raise. -/
inductive PyErr where
  | typeError
deriving DecidableEq

/-- Check-in entry of a habit: either the legacy plain date string or the
canonical dictionary with a date and an optional time-spent value
(habits.py line 65). The date key may be absent in malformed data. -/
inductive CheckIn where
  | str (s : String)
  | obj (date : Option String) (time_spent : Option ℚ)
deriving DecidableEq

/-- Task record as created by main.py add_task (with a category field). -/
structure MTask where
  id : Int
  title : String
  description : String
  priority : String
  due_date : String
  category : String
  completed : Bool
  created_at : Option String
  completed_at : Option String
  goal_id : Option Int
deriving DecidableEq

/-- Task record as created by todo.py add_task (no category field). -/
structure TaskRec where
  id : Int
  title : String
  description : String
  priority : String
  due_date : String
  completed : Bool
  created_at : Option String
  completed_at : Option String
  goal_id : Option Int
deriving DecidableEq

/-- Habit record as created by habits.py add_habit. -/
structure Habit where
  id : Int
  title : String
  description : String
  priority : String
  frequency : String
  check_ins : List CheckIn
  track_time : Bool
  created_at : Option String
  goal_id : Option Int
deriving DecidableEq

/-- Goal record as created by goals.py add_goal. -/
structure Goal where
  id : Int
  title : String
  description : String
  created_at : String
deriving DecidableEq

/-- Python round(x, 2) on our rational model of floats, written through the
floor as the half-up rounding `(q * 100 + 1/2).floor / 100`. -/
def round2 (q : ℚ) : ℚ := (⌊q * 100 + 1 / 2⌋ : ℚ) / 100

/-- Python round(x, 1) on our rational model of floats (half-up variant). -/
def round1 (q : ℚ) : ℚ := (⌊q * 10 + 1 / 2⌋ : ℚ) / 10

/-- Truthiness of an optional integer field: `not t.get("goal_id")` holds for
an absent key, `None`, and the integer `0`. -/
def falsyOptInt : Option Int → Bool
  | none => true
  | some v => decide (v = 0)

/-- Truthiness of an optional string field: absent, `None` and `""` are falsy. -/
def truthyOptStr : Option String → Bool
  | none => false
  | some s => decide (s ≠ "")

/-- Truthiness of an optional float: absent, `None` and `0` are falsy
(used for `checkin.get("time_spent")`). -/
def truthyOptQ : Option ℚ → Bool
  | none => false
  | some q => decide (q ≠ 0)

/-- Dictionary assignment `d[k] = v` on an insertion-ordered association
list: replaces the value in place if the key exists, else appends. -/
def upsert {κ β : Type} [DecidableEq κ] (k : κ) (v : β) : List (κ × β) → List (κ × β)
  | [] => [(k, v)]
  | (k', v') :: rest => if k' = k then (k, v) :: rest else (k', v') :: upsert k v rest

/-- defaultdict accumulation `d[k] += v` (a missing key starts from 0). -/
def bumpAssoc (k : String) (v : ℚ) : List (String × ℚ) → List (String × ℚ)
  | [] => [(k, v)]
  | (k', x) :: rest => if k' = k then (k', x + v) :: rest else (k', x) :: bumpAssoc k v rest

/-- Pointwise accumulation on a finitely-updated map with default 0,
modelling defaultdict lookups through `.get(key, 0)`. -/
def bumpFun {κ : Type} [DecidableEq κ] (f : κ → ℚ) (k : κ) (v : ℚ) : κ → ℚ :=
  fun x => if x = k then f x + v else f x

namespace Todo

/-- Embedding of todo.py add_task (lines 135-161): the new task gets id
`len(tasks) + 1` and is appended; returns the saved list and the new task.
The goal_id key is stored only when provided, which our Option field models
directly; `now` stands for `datetime.now().isoformat()`. -/
def add_task (tasks : List TaskRec) (title description priority due_date : String)
    (goal_id : Option Int) (now : String) : List TaskRec × TaskRec :=
  let new_task : TaskRec :=
    { id := (tasks.length : Int) + 1
      title := title
      description := description
      priority := priority
      due_date := due_date
      completed := false
      created_at := some now
      completed_at := none
      goal_id := goal_id }
  (tasks ++ [new_task], new_task)

/-- Embedding of todo.py delete_task (lines 320-335): filters out the task
with the matching id; returns the saved list and whether a removal happened. -/
def delete_task (tasks : List TaskRec) (task_id : Int) : List TaskRec × Bool :=
  let remaining := tasks.filter (fun t => decide (t.id ≠ task_id))
  (remaining, decide (remaining.length < tasks.length))

/-- Embedding of todo.py update_task (lines 205-229): finds the first task
with the given id, overwrites exactly the fields passed as non-None, saves,
and returns the updated task; later tasks with the same id are untouched
because the loop returns at the first match. -/
def update_task (tasks : List TaskRec) (task_id : Int)
    (title description priority due_date : Option String)
    (goal_id : Option Int) : List TaskRec × Option TaskRec :=
  match tasks with
  | [] => ([], none)
  | t :: rest =>
    if t.id = task_id then
      let t' : TaskRec :=
        { t with
          title := title.getD t.title
          description := description.getD t.description
          priority := priority.getD t.priority
          due_date := due_date.getD t.due_date
          goal_id := match goal_id with
            | some v => some v
            | none => t.goal_id }
      (t' :: rest, some t')
    else
      let r := update_task rest task_id title description priority due_date goal_id
      (t :: r.1, r.2)

end Todo

namespace Habits

/-- Embedding of habits.py add_habit (lines 56-75): the new habit gets id
`len(habits) + 1`, an empty check-in list, and is appended. -/
def add_habit (habits : List Habit) (title description priority frequency : String)
    (goal_id : Option Int) (track_time : Bool) (now : String) : List Habit × Habit :=
  let new_habit : Habit :=
    { id := (habits.length : Int) + 1
      title := title
      description := description
      priority := priority
      frequency := frequency
      check_ins := []
      track_time := track_time
      created_at := some now
      goal_id := goal_id }
  (habits ++ [new_habit], new_habit)

/-- Embedding of habits.py update_habit (lines 95-118): partial update of
the first habit with the given id; a None goal_id leaves the field alone. -/
def update_habit (habits : List Habit) (habit_id : Int)
    (title description priority frequency : Option String)
    (goal_id : Option Int) (track_time : Option Bool) : List Habit × Option Habit :=
  match habits with
  | [] => ([], none)
  | h :: rest =>
    if h.id = habit_id then
      let h' : Habit :=
        { h with
          title := title.getD h.title
          description := description.getD h.description
          priority := priority.getD h.priority
          frequency := frequency.getD h.frequency
          goal_id := match goal_id with
            | some v => some v
            | none => h.goal_id
          track_time := track_time.getD h.track_time }
      (h' :: rest, some h')
    else
      let r := update_habit rest habit_id title description priority frequency goal_id track_time
      (h :: r.1, r.2)

end Habits

namespace GoalsMod

/-- Embedding of goals.py add_goal (lines 48-62): the new goal gets id
`len(goals) + 1` and is appended. -/
def add_goal (goals : List Goal) (title description : String) (now : String) :
    List Goal × Goal :=
  let new_goal : Goal :=
    { id := (goals.length : Int) + 1
      title := title
      description := description
      created_at := now }
  (goals ++ [new_goal], new_goal)

/-- State of the three JSON stores that goals.py delete_goal can touch.
The habits store is part of the state to record that delete_goal never
reads or writes it. -/
structure Stores where
  goals : List Goal
  tasks : List TaskRec
  habits : List Habit
deriving DecidableEq

/-- Embedding of goals.py delete_goal (lines 114-128): removes the goal,
sets goal_id to None on every task that referenced it, and does not touch
the habits store at all (the function only loads goals and tasks). -/
def delete_goal (st : Stores) (goal_id : Int) : Stores × Bool :=
  let goals := st.goals.filter (fun g => decide (g.id ≠ goal_id))
  let tasks := st.tasks.map (fun t =>
    if t.goal_id = some goal_id then { t with goal_id := none } else t)
  ({ goals := goals, tasks := tasks, habits := st.habits }, true)

end GoalsMod

namespace Habits

/-- Test used by the scan loop of check_in_habit (habits.py lines 148-156):
a check-in matches the date when it is a dict whose date key equals it, or
the plain string equal to it. -/
def ciMatches (d : String) : CheckIn → Bool
  | .obj dd _ => decide (dd = some d)
  | .str s => decide (s = d)

/-- Scan of habits.py lines 147-156: find the index of the first check-in
for the date; when that entry is a legacy string it is migrated in place to
a dict with a None time_spent. Returns the index together with the list as
it stands after the scan, or none when no entry matches. -/
def findMigrate (d : String) : List CheckIn → Option (Nat × List CheckIn)
  | [] => none
  | c :: rest =>
    match c with
    | .obj dd t =>
      if dd = some d then some (0, .obj dd t :: rest)
      else (findMigrate d rest).map (fun r => (r.1 + 1, .obj dd t :: r.2))
    | .str s =>
      if s = d then some (0, .obj (some d) none :: rest)
      else (findMigrate d rest).map (fun r => (r.1 + 1, .str s :: r.2))

/-- Sort key of habits.py line 173: the date key for dicts, the string
itself for legacy entries. -/
def ciKey : CheckIn → Option String
  | .obj dd _ => dd
  | .str s => some s

/-- Total order on sort keys. Python would raise a TypeError when comparing
the None key of a malformed dict with a string; the model instead orders
None first. Every statement proved below only uses that sorting preserves
length, which is unaffected by this choice. -/
def ciKeyLe (a b : CheckIn) : Bool :=
  match ciKey a, ciKey b with
  | none, _ => true
  | some _, none => false
  | some x, some y => decide (x ≤ y)

/-- Body of the check-in update performed by habits.py lines 143-173 on the
check_ins list of the matched habit: locate (and migrate) an existing entry
for the date, overwrite it only when a time is being recorded for a
time-tracking habit, append a fresh entry otherwise, and sort by date. -/
def applyCheckIn (cs : List CheckIn) (track_time : Bool) (check_date : String)
    (time_spent : Option ℚ) : List CheckIn :=
  let checkin_obj : CheckIn :=
    .obj (some check_date) (if time_spent.isSome ∧ track_time then time_spent else none)
  let updated :=
    match findMigrate check_date cs with
    | some r => if time_spent.isSome ∧ track_time then r.2.set r.1 checkin_obj else r.2
    | none => cs ++ [checkin_obj]
  updated.mergeSort ciKeyLe

/-- Embedding of habits.py check_in_habit (lines 133-179): the first habit
with the given id has its check-in list updated through applyCheckIn; every
other habit is untouched; returns the saved list and the updated habit. -/
def check_in_habit (habits : List Habit) (habit_id : Int) (check_date : String)
    (time_spent : Option ℚ) : List Habit × Option Habit :=
  match habits with
  | [] => ([], none)
  | h :: rest =>
    if h.id = habit_id then
      let h' : Habit :=
        { h with check_ins := applyCheckIn h.check_ins h.track_time check_date time_spent }
      (h' :: rest, some h')
    else
      let r := check_in_habit rest habit_id check_date time_spent
      (h :: r.1, r.2)

end Habits

/-- Statistics record produced for a group of records, shared by all slices
of the analytics reports (total, completed, incomplete,
completion_percentage). The incomplete field is an integer because the habit
variant stores the full group size there rather than a difference. -/
structure GroupStats where
  total : Nat
  completed : Nat
  incomplete : Int
  completion_percentage : ℚ
deriving DecidableEq

/-- Per-goal statistics entry (the goal name plus the group statistics). -/
structure GoalStats where
  goal_name : String
  total : Nat
  completed : Nat
  incomplete : Int
  completion_percentage : ℚ
deriving DecidableEq

/-- The by_goal slice of an analytics report: the per-goal dictionary plus
the with/without counters (main.py lines 427-432, analytics.py 176-181). -/
structure ByGoal where
  goals : List (Int × GoalStats)
  tasks_with_goals : Nat
  tasks_without_goals : Nat
  total_goals : Nat
deriving DecidableEq

/-- The time_stats slice of an analytics report. -/
structure TimeStats where
  overdue_count : Nat
  due_soon_count : Nat
  completed_today : Nat
  created_today : Nat
  avg_completion_days : ℚ
deriving DecidableEq

namespace MainApp

/-- Group statistic computation repeated verbatim for every slice of
main.py get_analytics (lines 315-328, 341-351, 381-391, 409-420): count,
completed count, difference, and the rounded completion percentage with the
division-by-zero guard. -/
def mkTaskStats (ts : List MTask) : GroupStats :=
  let total := ts.length
  let completed := (ts.filter (fun t => t.completed)).length
  let pct : ℚ := if 0 < total then (completed : ℚ) / (total : ℚ) * 100 else 0
  { total := total
    completed := completed
    incomplete := (total : Int) - (completed : Int)
    completion_percentage := round2 pct }

/-- Category statistics of main.py lines 335-368: one dict entry per stored
category, plus an Uncategorized entry only when tasks without a category
exist. Built with upsert because a duplicated category name would overwrite
its dict entry in place. -/
def categoryStats (tasks : List MTask) (categories : List String) :
    List (String × GroupStats) :=
  let base := categories.foldl
    (fun acc c => upsert c (mkTaskStats (tasks.filter (fun t => decide (t.category = c)))) acc)
    []
  let uncategorized := tasks.filter (fun t => decide (t.category = ""))
  if uncategorized.length ≠ 0 then
    upsert "Uncategorized" (mkTaskStats uncategorized) base
  else base

/-- Priority statistics of main.py lines 375-393: one entry per fixed label. -/
def priorityStats (tasks : List MTask) : List (String × GroupStats) :=
  ["Now", "Next", "Later"].foldl
    (fun acc p => upsert p (mkTaskStats (tasks.filter (fun t => decide (t.priority = p)))) acc)
    []

/-- One iteration of the goal loop of main.py lines 405-422: store the dict
entry for the goal and add its group size to the running
tasks_with_goals counter. -/
def byGoalStep (tasks : List MTask) (acc : List (Int × GoalStats) × Nat) (goal : Goal) :
    List (Int × GoalStats) × Nat :=
  let goal_tasks := tasks.filter (fun t => decide (t.goal_id = some goal.id))
  let goal_total := goal_tasks.length
  let goal_completed := (goal_tasks.filter (fun t => t.completed)).length
  let pct : ℚ :=
    if 0 < goal_total then (goal_completed : ℚ) / (goal_total : ℚ) * 100 else 0
  let gs : GoalStats :=
    { goal_name := goal.title
      total := goal_total
      completed := goal_completed
      incomplete := (goal_total : Int) - (goal_completed : Int)
      completion_percentage := round2 pct }
  (upsert goal.id gs acc.1, acc.2 + goal_total)

/-- Goal statistics of main.py lines 400-432: a dict entry per stored goal,
the running sum of group totals as tasks_with_goals, and the count of tasks
with a falsy goal_id as tasks_without_goals. -/
def byGoalStats (tasks : List MTask) (goals : List Goal) : ByGoal :=
  let r := goals.foldl (byGoalStep tasks) ([], 0)
  { goals := r.1
    tasks_with_goals := r.2
    tasks_without_goals := (tasks.filter (fun t => falsyOptInt t.goal_id)).length
    total_goals := goals.length }

/-- Accumulator of the time-stats pass of main.py lines 439-487. -/
structure MTAcc where
  overdue_count : Nat
  due_soon_count : Nat
  completed_today : Nat
  created_today : Nat
  completion_days : List Int
deriving DecidableEq

/-- One iteration of the time-stats loop of main.py lines 447-487.
Timestamps are rational day counts; fromisoformat is the parse parameter
(returning none where Python would raise the caught ValueError), the date()
projection is the floor, and timedelta.days is the floor of the difference. -/
def timeStatsStep (parse : String → Option ℚ) (now : ℚ) (acc : MTAcc) (t : MTask) : MTAcc :=
  let acc :=
    if t.due_date ≠ "" ∧ t.completed = false then
      match parse t.due_date with
      | some dd =>
        let acc := if dd < now then { acc with overdue_count := acc.overdue_count + 1 } else acc
        let days := ⌊dd - now⌋
        if 0 ≤ days ∧ days ≤ 7 then
          { acc with due_soon_count := acc.due_soon_count + 1 }
        else acc
      | none => acc
    else acc
  let acc :=
    if truthyOptStr t.completed_at then
      match t.completed_at.bind parse with
      | some ca =>
        let acc :=
          if ⌊ca⌋ = ⌊now⌋ then { acc with completed_today := acc.completed_today + 1 } else acc
        if truthyOptStr t.created_at then
          match t.created_at.bind parse with
          | some cr =>
            let ttc := ⌊ca - cr⌋
            if 0 ≤ ttc then { acc with completion_days := acc.completion_days ++ [ttc] }
            else acc
          | none => acc
        else acc
      | none => acc
    else acc
  if truthyOptStr t.created_at then
    match t.created_at.bind parse with
    | some cr =>
      if ⌊cr⌋ = ⌊now⌋ then { acc with created_today := acc.created_today + 1 } else acc
    | none => acc
  else acc

/-- Time statistics of main.py lines 439-498. -/
def timeStats (tasks : List MTask) (parse : String → Option ℚ) (now : ℚ) : TimeStats :=
  let acc := tasks.foldl (timeStatsStep parse now) ⟨0, 0, 0, 0, []⟩
  let avg : ℚ :=
    if acc.completion_days.length ≠ 0 then
      ((acc.completion_days.sum : ℚ)) / (acc.completion_days.length : ℚ)
    else 0
  { overdue_count := acc.overdue_count
    due_soon_count := acc.due_soon_count
    completed_today := acc.completed_today
    created_today := acc.created_today
    avg_completion_days := round1 avg }

/-- The productivity slice of an analytics report over category groups
(main.py lines 505-536). -/
structure Productivity where
  most_productive_category : Option String
  most_productive_completion_rate : ℚ
  category_with_most_tasks : Option String
  max_tasks_in_category : Nat
  category_distribution : List (String × ℚ)
deriving DecidableEq

/-- Productivity metrics of main.py lines 505-536, derived from the
category statistics dict. -/
def productivity (category_stats : List (String × GroupStats)) (total_tasks : Nat) :
    Productivity :=
  let best := category_stats.foldl
    (fun (b : Option String × ℚ) kv =>
      if 3 ≤ kv.2.total ∧ b.2 < kv.2.completion_percentage then
        (some kv.1, kv.2.completion_percentage)
      else b)
    (none, 0)
  let most := category_stats.foldl
    (fun (b : Option String × Nat) kv =>
      if b.2 < kv.2.total then (some kv.1, kv.2.total) else b)
    (none, 0)
  let dist := category_stats.foldl
    (fun acc kv =>
      upsert kv.1
        (if 0 < total_tasks then round2 ((kv.2.total : ℚ) / (total_tasks : ℚ) * 100) else 0)
        acc)
    []
  { most_productive_category := best.1
    most_productive_completion_rate := if truthyOptStr best.1 then round2 best.2 else 0
    category_with_most_tasks := most.1
    max_tasks_in_category := most.2
    category_distribution := dist }

/-- Full analytics report of main.py get_analytics. -/
structure Analytics where
  overall : GroupStats
  by_category : List (String × GroupStats)
  by_priority : List (String × GroupStats)
  by_goal : ByGoal
  time_stats : TimeStats
  productivity : Productivity
deriving DecidableEq

/-- Embedding of main.py get_analytics (lines 281-538): assembles the
overall, category, priority, goal, time and productivity slices from the
loaded tasks, categories and goals. -/
def get_analytics (tasks : List MTask) (categories : List String) (goals : List Goal)
    (parse : String → Option ℚ) (now : ℚ) : Analytics :=
  let category_stats := categoryStats tasks categories
  { overall := mkTaskStats tasks
    by_category := category_stats
    by_priority := priorityStats tasks
    by_goal := byGoalStats tasks goals
    time_stats := timeStats tasks parse now
    productivity := productivity category_stats tasks.length }

end MainApp

namespace AnalyticsMod

/-- Total check-in count over a habit list (analytics.py line 104). -/
def totalCheckIns (habits : List Habit) : Nat :=
  (habits.map (fun h => h.check_ins.length)).sum

/-- Overall slice of analytics.py get_analytics (lines 102-115): completed
is the total check-in count, incomplete is the habit count (all habits are
considered active), and completion_percentage is the rounded average
check-in count per habit. -/
def overallStats (habits : List Habit) : GroupStats :=
  let total_habits := habits.length
  let total_check_ins := totalCheckIns habits
  let avg : ℚ :=
    if 0 < total_habits then (total_check_ins : ℚ) / (total_habits : ℚ) else 0
  { total := total_habits
    completed := total_check_ins
    incomplete := (total_habits : Int)
    completion_percentage := round2 avg }

/-- Priority slice of analytics.py lines 123-141: for each of the five
labels, the habit count, the check-in total, the habit count again as
incomplete, and the rounded average check-ins per habit. -/
def priorityStats (habits : List Habit) : List (String × GroupStats) :=
  ["Today", "Now", "Next", "Later", "Someday"].foldl
    (fun acc p =>
      let priority_habits := habits.filter (fun h => decide (h.priority = p))
      let pri_total := priority_habits.length
      let pri_check_ins := totalCheckIns priority_habits
      let pct : ℚ := if 0 < pri_total then (pri_check_ins : ℚ) / (pri_total : ℚ) else 0
      upsert p
        { total := pri_total
          completed := pri_check_ins
          incomplete := (pri_total : Int)
          completion_percentage := round2 pct }
        acc)
    []

/-- One iteration of the goal loop of analytics.py lines 154-171: store the
dict entry for the goal and add its group size to the running counter of
habits with goals. -/
def byGoalStep (habits : List Habit) (acc : List (Int × GoalStats) × Nat) (goal : Goal) :
    List (Int × GoalStats) × Nat :=
  let goal_habits := habits.filter (fun h => decide (h.goal_id = some goal.id))
  let goal_total := goal_habits.length
  let goal_check_ins := totalCheckIns goal_habits
  let pct : ℚ := if 0 < goal_total then (goal_check_ins : ℚ) / (goal_total : ℚ) else 0
  let gs : GoalStats :=
    { goal_name := goal.title
      total := goal_total
      completed := goal_check_ins
      incomplete := (goal_total : Int)
      completion_percentage := round2 pct }
  (upsert goal.id gs acc.1, acc.2 + goal_total)

/-- Goal slice of analytics.py lines 149-181: a dict entry per stored goal
keyed by its id, the running sum of group sizes as habits with goals, and
the count of habits with a falsy goal_id as habits without goals. -/
def byGoalStats (habits : List Habit) (goals : List Goal) : ByGoal :=
  let r := goals.foldl (byGoalStep habits) ([], 0)
  { goals := r.1
    tasks_with_goals := r.2
    tasks_without_goals := (habits.filter (fun h => falsyOptInt h.goal_id)).length
    total_goals := goals.length }

/-- Membership test `today_str in check_ins` of analytics.py line 206: a
Python equality scan; a dict entry never equals a string, so only legacy
string entries can match. This comparison cannot raise. -/
def pyMemStr (cs : List CheckIn) (s : String) : Bool :=
  cs.any (fun c => match c with
    | .str t => decide (t = s)
    | .obj _ _ => false)

/-- Generator `any(ci >= week_ago for ci in check_ins)` of analytics.py
line 212: lazily compares each entry with the string week_ago. A legacy
string entry compares lexicographically; reaching a dict entry raises a
TypeError, exactly as Python does for dict >= str. -/
def pyAnyGeStr : List CheckIn → String → Except PyErr Bool
  | [], _ => .ok false
  | .str t :: rest, w => if w ≤ t then .ok true else pyAnyGeStr rest w
  | .obj _ _ :: _, _ => .error .typeError

/-- Accumulator of the time-stats pass of analytics.py lines 194-222. -/
structure HTAcc where
  missed_today : Nat
  active_this_week : Nat
  checked_in_today : Nat
  created_today : Nat
  total_check_ins_all : Nat
deriving DecidableEq

/-- One iteration of the habit time-stats loop of analytics.py lines
201-222. The week activity test can raise on a dict check-in, so the step
runs in Except. -/
def timeStatsStep (today_str week_ago : String) (parse : String → Option ℚ) (now : ℚ)
    (acc : HTAcc) (h : Habit) : Except PyErr HTAcc := do
  let cis := h.check_ins
  let acc := { acc with total_check_ins_all := acc.total_check_ins_all + cis.length }
  let acc :=
    if pyMemStr cis today_str then { acc with checked_in_today := acc.checked_in_today + 1 }
    else { acc with missed_today := acc.missed_today + 1 }
  let active ← pyAnyGeStr cis week_ago
  let acc :=
    if active then { acc with active_this_week := acc.active_this_week + 1 } else acc
  let acc :=
    if truthyOptStr h.created_at then
      match h.created_at.bind parse with
      | some cr => if ⌊cr⌋ = ⌊now⌋ then { acc with created_today := acc.created_today + 1 } else acc
      | none => acc
    else acc
  return acc

/-- Time statistics of analytics.py lines 189-233. -/
def timeStats (habits : List Habit) (today_str week_ago : String)
    (parse : String → Option ℚ) (now : ℚ) : Except PyErr TimeStats := do
  let acc ← habits.foldlM (timeStatsStep today_str week_ago parse now) ⟨0, 0, 0, 0, 0⟩
  let avg : ℚ :=
    if habits.length ≠ 0 then (acc.total_check_ins_all : ℚ) / (habits.length : ℚ) else 0
  pure
    { overdue_count := acc.missed_today
      due_soon_count := acc.active_this_week
      completed_today := acc.checked_in_today
      created_today := acc.created_today
      avg_completion_days := round1 avg }

/-- The productivity slice of the habit report (analytics.py lines 269-275). -/
structure HProductivity where
  most_productive_goal : Option String
  most_productive_completion_rate : ℚ
  goal_with_most_tasks : Option String
  max_tasks_in_goal : Nat
  goal_distribution : List (String × ℚ)
deriving DecidableEq

/-- Productivity metrics of analytics.py lines 243-275, derived from the
goal statistics dict. -/
def productivity (goal_stats : List (Int × GoalStats)) (total_habits : Nat) :
    HProductivity :=
  let best := goal_stats.foldl
    (fun (b : Option String × ℚ) kv =>
      if 3 ≤ kv.2.total ∧ b.2 < kv.2.completion_percentage then
        (some kv.2.goal_name, kv.2.completion_percentage)
      else b)
    (none, 0)
  let most := goal_stats.foldl
    (fun (b : Option String × Nat) kv =>
      if b.2 < kv.2.total then (some kv.2.goal_name, kv.2.total) else b)
    (none, 0)
  let dist := goal_stats.foldl
    (fun acc kv =>
      upsert kv.2.goal_name
        (if 0 < total_habits then round2 ((kv.2.total : ℚ) / (total_habits : ℚ) * 100) else 0)
        acc)
    []
  { most_productive_goal := best.1
    most_productive_completion_rate := if truthyOptStr best.1 then round2 best.2 else 0
    goal_with_most_tasks := most.1
    max_tasks_in_goal := most.2
    goal_distribution := dist }

/-- Full analytics report of analytics.py get_analytics. -/
structure HAnalytics where
  overall : GroupStats
  by_priority : List (String × GroupStats)
  by_goal : ByGoal
  time_stats : TimeStats
  productivity : HProductivity
deriving DecidableEq

/-- Embedding of analytics.py get_analytics (lines 27-282) over habits and
goals. The overall, priority, goal and productivity slices are pure; the
time-stats pass can raise a TypeError while comparing a dict check-in with
the week_ago string, in which case the whole call raises. -/
def get_analytics (habits : List Habit) (goals : List Goal)
    (today_str week_ago : String) (parse : String → Option ℚ) (now : ℚ) :
    Except PyErr HAnalytics := do
  let by_goal := byGoalStats habits goals
  let ts ← timeStats habits today_str week_ago parse now
  pure
    { overall := overallStats habits
      by_priority := priorityStats habits
      by_goal := by_goal
      time_stats := ts
      productivity := productivity by_goal.goals habits.length }

end AnalyticsMod

namespace AnalyticsMod

/-- Truthy time_spent test of analytics.py lines 339 and 371: the entry is
a dict and carries a non-falsy time_spent value. -/
def hasTime : CheckIn → Bool
  | .obj _ ts => truthyOptQ ts
  | .str _ => false

/-- Monday on or before a day ordinal (analytics.py lines 354-356 and
407-408). Day ordinals follow the proleptic Gregorian ordinal of the
standard library, whose day 1 is a Monday, so the weekday is
`(d - 1) % 7`. -/
def weekStart (d : Int) : Int := d - (d - 1) % 7

/-- Per-habit time entry of analytics.py lines 368-372. -/
structure HabitTime where
  total_minutes : ℚ
  total_hours : ℚ
  check_ins : Nat
deriving DecidableEq

/-- Accumulator of the per-habit loop of analytics.py lines 333-378:
running total, per-habit dict, per-goal minute dict, and the three
breakdown dicts (modelled as finitely-updated maps with default 0, which is
exactly what defaultdict lookups through `.get(key, 0)` observe). -/
structure GAcc where
  total_time : ℚ
  by_habit : List (String × HabitTime)
  by_goal_min : List (String × ℚ)
  daily : String → ℚ
  weekly : Int → ℚ
  monthly : Int → ℚ

/-- Initial accumulator: everything empty, every bucket at 0. -/
def initGAcc : GAcc :=
  { total_time := 0, by_habit := [], by_goal_min := []
    daily := fun _ => 0, weekly := fun _ => 0, monthly := fun _ => 0 }

/-- One check-in of the loop of analytics.py lines 338-364: entries without
a truthy time_spent are skipped; otherwise the minutes are added to the
habit and global totals, and, when the date string is truthy and parses,
to the daily (keyed by the raw string), weekly (keyed by the Monday
ordinal) and monthly (keyed through the month-key function) buckets. The
first component of the pair is the habit_time accumulator. -/
def processCheckIn (parseDate : String → Option Int) (monthKeyOf : Int → Int)
    (p : ℚ × GAcc) (c : CheckIn) : ℚ × GAcc :=
  match c with
  | .str _ => p
  | .obj dopt tsopt =>
    if truthyOptQ tsopt then
      let ts := tsopt.getD 0
      let g := { p.2 with total_time := p.2.total_time + ts }
      let g :=
        match dopt with
        | some ds =>
          if ds ≠ "" then
            match parseDate ds with
            | some d =>
              { g with
                daily := bumpFun g.daily ds ts
                weekly := bumpFun g.weekly (weekStart d) ts
                monthly := bumpFun g.monthly (monthKeyOf d) ts }
            | none => g
          else g
        | none => g
      (p.1 + ts, g)
    else p

/-- One habit of the loop of analytics.py lines 333-378: fold the check-ins,
then, when any time was recorded, store the per-habit entry and add the
habit time to the goal bucket when the goal reference resolves. -/
def processHabit (goals : List Goal) (parseDate : String → Option Int)
    (monthKeyOf : Int → Int) (g : GAcc) (h : Habit) : GAcc :=
  let r := h.check_ins.foldl (processCheckIn parseDate monthKeyOf) (0, g)
  let habit_time := r.1
  let g1 := r.2
  if 0 < habit_time then
    let g2 :=
      { g1 with
        by_habit := upsert h.title
          { total_minutes := habit_time
            total_hours := round2 (habit_time / 60)
            check_ins := (h.check_ins.filter hasTime).length }
          g1.by_habit }
    if falsyOptInt h.goal_id = false then
      match goals.find? (fun gl => decide (h.goal_id = some gl.id)) with
      | some gl => { g2 with by_goal_min := bumpAssoc gl.title habit_time g2.by_goal_min }
      | none => g2
    else g2
  else g1

/-- Point of the trend series, carrying the key field matching the period
(date, week or month) and the hour value. -/
inductive TrendPoint where
  | daily (date : String) (time : ℚ)
  | weekly (week : Int) (time : ℚ)
  | monthly (month : Int) (time : ℚ)
deriving DecidableEq

/-- Hour value of a trend point. -/
def TrendPoint.time : TrendPoint → ℚ
  | .daily _ t => t
  | .weekly _ t => t
  | .monthly _ t => t

/-- Report of analytics.py get_time_analytics. -/
structure TimeAnalytics where
  total_time : ℚ
  by_habit : List (String × HabitTime)
  by_goal : List (String × ℚ)
  daily_breakdown : String → ℚ
  weekly_breakdown : Int → ℚ
  monthly_breakdown : Int → ℚ
  trends : List TrendPoint

/-- Embedding of analytics.py get_time_analytics (lines 285-428).
Parameters stand for the standard library pieces the code calls: today is
the ordinal of date.today(), firstOfMonth the ordinal of
date.today().replace(day=1), parseDate is date.fromisoformat (none where
Python raises the caught ValueError), isoOf is date.isoformat on an
ordinal, and monthKeyOf is strftime of the year-month key. When no habit
tracks time the early return of lines 310-319 produces the empty report
with an empty trend list; otherwise the trend series is a map over 30
daily, 12 weekly or 12 monthly backward-looking buckets, the monthly ones
stepped by plain 30-day multiples. Any period other than daily or weekly
falls into the monthly branch of line 415. -/
def get_time_analytics (habits : List Habit) (goals : List Goal) (period : String)
    (today firstOfMonth : Int) (parseDate : String → Option Int)
    (isoOf : Int → String) (monthKeyOf : Int → Int) : TimeAnalytics :=
  let time_tracking_habits := habits.filter (fun h => h.track_time)
  if time_tracking_habits = [] then
    { total_time := 0, by_habit := [], by_goal := []
      daily_breakdown := fun _ => 0, weekly_breakdown := fun _ => 0
      monthly_breakdown := fun _ => 0, trends := [] }
  else
    let g := time_tracking_habits.foldl (processHabit goals parseDate monthKeyOf) initGAcc
    let trends :=
      if period = "daily" then
        (List.range 30).reverse.map (fun i : ℕ =>
          TrendPoint.daily (isoOf (today - (i : Int))) (g.daily (isoOf (today - (i : Int))) / 60))
      else if period = "weekly" then
        (List.range 12).reverse.map (fun i : ℕ =>
          TrendPoint.weekly (weekStart (today - 7 * (i : Int)))
            (g.weekly (weekStart (today - 7 * (i : Int))) / 60))
      else
        (List.range 12).reverse.map (fun i : ℕ =>
          TrendPoint.monthly (monthKeyOf (firstOfMonth - 30 * (i : Int)))
            (g.monthly (monthKeyOf (firstOfMonth - 30 * (i : Int))) / 60))
    { total_time := g.total_time
      by_habit := g.by_habit
      by_goal := g.by_goal_min.map (fun kv => (kv.1, round2 (kv.2 / 60)))
      daily_breakdown := g.daily
      weekly_breakdown := g.weekly
      monthly_breakdown := g.monthly
      trends := trends }

end AnalyticsMod

namespace Todo

/-- Operation on the task store: an add_task call with its arguments, or a
delete_task call. -/
inductive Op where
  | add (title description priority due_date : String) (goal_id : Option Int) (now : String)
  | del (task_id : Int)
deriving DecidableEq

/-- Whether an operation is an add. -/
def Op.isAdd : Op → Bool
  | .add _ _ _ _ _ _ => true
  | .del _ => false

/-- Effect of one operation on the stored task list. -/
def applyOp (tasks : List TaskRec) : Op → List TaskRec
  | .add title description priority due_date goal_id now =>
    (add_task tasks title description priority due_date goal_id now).1
  | .del task_id => (delete_task tasks task_id).1

/-- Stored task list after a sequence of add and delete operations starting
from the empty store. -/
def runOps (ops : List Op) : List TaskRec :=
  ops.foldl applyOp []

end Todo

section DemoInputs

/-- Habit holding one canonical dict check-in, as written by check_in_habit
for a time-tracking habit. -/
def demoHabitObj : Habit :=
  { id := 1, title := "read", description := "", priority := "Next"
    frequency := "daily", check_ins := [.obj (some "2024-01-01") (some 30)]
    track_time := true, created_at := some "2024-01-01T09:00:00", goal_id := none }

/-- Habit holding one legacy string check-in. -/
def demoHabitStr : Habit :=
  { id := 2, title := "run", description := "", priority := "Next"
    frequency := "daily", check_ins := [.str "2024-01-01"]
    track_time := false, created_at := some "2024-01-01T09:00:00", goal_id := none }

/-- Habit with 101 legacy check-ins, giving an average above 100. -/
def bigHabit : Habit :=
  { id := 3, title := "stretch", description := "", priority := "Next"
    frequency := "daily", check_ins := List.replicate 101 (.str "2024-01-01")
    track_time := false, created_at := some "2024-01-01T09:00:00", goal_id := none }

/-- Time-tracking habit with a single check-in that carries no time. -/
def demoTrackedHabit : Habit :=
  { id := 4, title := "write", description := "", priority := "Next"
    frequency := "daily", check_ins := [.obj (some "2024-01-01") none]
    track_time := true, created_at := some "2024-01-01T09:00:00", goal_id := none }

/-- Task whose goal_id references a goal that does not exist. -/
def demoDanglingTask : MTask :=
  { id := 1, title := "a", description := "", priority := "Next", due_date := ""
    category := "", completed := false, created_at := some "2024-01-01T09:00:00"
    completed_at := none, goal_id := some 1 }

/-- Goal number 1. -/
def demoGoal : Goal :=
  { id := 1, title := "health", description := "", created_at := "2024-01-01T09:00:00" }

/-- Task linked to goal 1 and task without a goal, used as a well-linked store. -/
def demoLinkedTask : MTask :=
  { id := 1, title := "a", description := "", priority := "Next", due_date := ""
    category := "", completed := true, created_at := some "2024-01-01T09:00:00"
    completed_at := some "2024-01-02T09:00:00", goal_id := some 1 }

/-- Task without any goal reference. -/
def demoFreeTask : MTask :=
  { id := 2, title := "b", description := "", priority := "Now", due_date := ""
    category := "", completed := false, created_at := some "2024-01-01T09:00:00"
    completed_at := none, goal_id := none }

/-- Habit that still references goal 1 inside the habit store. -/
def demoLinkedHabit : Habit :=
  { id := 1, title := "read", description := "", priority := "Next"
    frequency := "daily", check_ins := [], track_time := false
    created_at := some "2024-01-01T09:00:00", goal_id := some 1 }

/-- Store state holding goal 1, no task, and one habit linked to goal 1. -/
def demoStores : GoalsMod.Stores :=
  { goals := [demoGoal], tasks := [], habits := [demoLinkedHabit] }

/-- Date parser stub standing for fromisoformat on inputs where every parse
fails; concrete scenarios below never depend on parsed timestamps. -/
def noParse : String → Option ℚ := fun _ => none

/-- Ordinal date parser stub. -/
def noParseDate : String → Option Int := fun _ => none

/-- Formatter stub for date.isoformat on an ordinal. -/
def blankIso : Int → String := fun _ => ""

/-- Month-key stub: the identity on ordinals. -/
def idKey : Int → Int := fun z => z

/-- Operation sequence: two adds, the deletion of task 1, then a third add. -/
def demoOps : List Todo.Op :=
  [ .add "a" "" "Next" "" none "2024-01-01T09:00:00"
  , .add "b" "" "Next" "" none "2024-01-01T09:05:00"
  , .del 1
  , .add "c" "" "Next" "" none "2024-01-01T09:10:00" ]

/-- Operation sequence consisting of adds only. -/
def demoAddOps : List Todo.Op :=
  [ .add "a" "" "Next" "" none "2024-01-01T09:00:00"
  , .add "b" "" "Next" "" none "2024-01-01T09:05:00" ]

/-- Stored task (todo.py layout) linked to goal 1. -/
def demoLinkedTaskRec : TaskRec :=
  { id := 1, title := "a", description := "", priority := "Next", due_date := ""
    completed := false, created_at := some "2024-01-01T09:00:00"
    completed_at := none, goal_id := some 1 }

/-- Store state holding goal 1 and one task linked to it. -/
def demoStoresB : GoalsMod.Stores :=
  { goals := [demoGoal], tasks := [demoLinkedTaskRec], habits := [] }

end DemoInputs

section Helpers

/-- A fold whose every step preserves a predicate produces a state
satisfying it. -/
theorem foldl_inv {σ α : Type} (f : σ → α → σ) (P : σ → Prop) (l : List α) :
    ∀ s : σ, P s → (∀ s' a, a ∈ l → P s' → P (f s' a)) → P (l.foldl f s) := by
  induction l with
  | nil => intro s hs _; simpa using hs
  | cons a l ih =>
    intro s hs hstep
    simp only [List.foldl_cons]
    exact ih (f s a) (hstep s a (by simp) hs)
      (fun s' b hb hP => hstep s' b (by simp [hb]) hP)

/-- A fold whose every step fixes the state leaves the state unchanged. -/
theorem foldl_fixed {σ α : Type} (f : σ → α → σ) (l : List α)
    (h : ∀ s a, a ∈ l → f s a = s) : ∀ s : σ, l.foldl f s = s := by
  induction l with
  | nil => intro s; rfl
  | cons a l ih =>
    intro s
    simp only [List.foldl_cons, h s a (by simp)]
    exact ih (fun s' b hb => h s' b (by simp [hb])) s

/-- Upsert preserves a predicate satisfied by the new entry and by every
stored entry. -/
theorem upsert_forall {κ β : Type} [DecidableEq κ] (P : κ × β → Prop) (k : κ) (v : β) :
    ∀ l : List (κ × β), P (k, v) → (∀ x ∈ l, P x) → ∀ x ∈ upsert k v l, P x := by
  intro l
  induction l with
  | nil => intro hv _ x hx; simp only [upsert, List.mem_singleton] at hx; simpa [hx]
  | cons kv rest ih =>
    intro hv hl x hx
    simp only [upsert] at hx
    by_cases hk : kv.1 = k
    · rw [if_pos hk] at hx
      rcases List.mem_cons.mp hx with h | h
      · simpa [h]
      · exact hl x (List.mem_cons_of_mem _ h)
    · rw [if_neg hk] at hx
      rcases List.mem_cons.mp hx with h | h
      · exact hl x (by simp [h])
      · exact ih hv (fun y hy => hl y (List.mem_cons_of_mem _ hy)) x h

/-- The half-up rounding of a nonnegative rational is nonnegative. -/
theorem floor_half_nonneg (x : ℚ) (h : 0 ≤ x) : 0 ≤ ⌊x + 1 / 2⌋ := by
  have h12 : ⌊(1 / 2 : ℚ)⌋ = 0 := by
    rw [Int.floor_eq_iff] <;> norm_num
  calc (0 : ℤ) = ⌊(1 / 2 : ℚ)⌋ := h12.symm
    _ ≤ ⌊x + 1 / 2⌋ := Int.floor_le_floor (by linarith)

/-- Rounding to two decimals preserves nonnegativity. -/
theorem round2_nonneg (x : ℚ) (h : 0 ≤ x) : 0 ≤ round2 x := by
  unfold round2
  have : (0 : ℤ) ≤ ⌊x * 100 + 1 / 2⌋ := floor_half_nonneg _ (by positivity)
  positivity

/-- Rounding to two decimals keeps values at most 100 below 100. -/
theorem round2_le_100 (x : ℚ) (h : x ≤ 100) : round2 x ≤ 100 := by
  unfold round2
  have hround : ⌊x * 100 + 1 / 2⌋ ≤ 10000 := by
    have hmono : ⌊x * 100 + 1 / 2⌋ ≤ ⌊(10000 : ℚ) + 1 / 2⌋ :=
      Int.floor_le_floor (by linarith)
    have h2 : ⌊(10000 : ℚ) + 1 / 2⌋ = 10000 := by
      rw [Int.floor_eq_iff] <;> norm_num
    omega
  rw [div_le_iff₀ (by norm_num : (0 : ℚ) < 100)]
  calc (⌊x * 100 + 1 / 2⌋ : ℚ) ≤ (10000 : ℚ) := by exact_mod_cast hround
    _ = 100 * 100 := by norm_num

/-- Rounding zero to two decimals gives zero. -/
theorem round2_zero : round2 0 = 0 := by
  with_unfolding_all decide

/-- Bounds of the guarded, rounded completion ratio used by every task
slice: it lies in the unit percentage interval and vanishes on empty
groups. -/
theorem pct_expr_bounds (c t : Nat) (hct : c ≤ t) :
    0 ≤ round2 (if 0 < t then (c : ℚ) / (t : ℚ) * 100 else 0) ∧
    round2 (if 0 < t then (c : ℚ) / (t : ℚ) * 100 else 0) ≤ 100 ∧
    (t = 0 → round2 (if 0 < t then (c : ℚ) / (t : ℚ) * 100 else 0) = 0) := by
  by_cases ht : 0 < t
  · have h1 : (0 : ℚ) ≤ (c : ℚ) / (t : ℚ) * 100 := by positivity
    have h2 : (c : ℚ) / (t : ℚ) * 100 ≤ 100 := by
      have htq : (0 : ℚ) < (t : ℚ) := by exact_mod_cast ht
      have := (div_le_one₀ htq).mpr (show (c : ℚ) ≤ (t : ℚ) by exact_mod_cast hct)
      nlinarith
    refine ⟨?_, ?_, ?_⟩
    · simpa [ht] using round2_nonneg _ h1
    · simpa [ht] using round2_le_100 _ h2
    · intro h0; omega
  · simp [ht, round2_zero]

/-- Length of a filtered list as a sum of indicator values. -/
theorem length_filter_eq_sum_ite {α : Type} (p : α → Bool) :
    ∀ l : List α, (l.filter p).length = (l.map (fun a => if p a then 1 else 0)).sum := by
  intro l
  induction l with
  | nil => rfl
  | cons a l ih => by_cases h : p a <;> simp [List.filter_cons, h, ih, Nat.add_comm]

end Helpers

section CheckInLemmas

/-- The scan of check_in_habit finds an index whenever some entry matches
the date, and the scanned (possibly migrated) list keeps its length. -/
theorem findMigrate_some_length (d : String) :
    ∀ cs : List CheckIn, cs.any (Habits.ciMatches d) = true →
      ∃ r, Habits.findMigrate d cs = some r ∧ r.2.length = cs.length := by
  intro cs
  induction cs with
  | nil => intro h; simp at h
  | cons c rest ih =>
    intro h
    match c with
    | .obj dd t =>
      by_cases hd : dd = some d
      · exact ⟨(0, .obj dd t :: rest), by simp [Habits.findMigrate, hd], by simp⟩
      · have hrest : rest.any (Habits.ciMatches d) = true := by
          simpa [Habits.ciMatches, hd] using h
        obtain ⟨r, hr, hlen⟩ := ih hrest
        exact ⟨(r.1 + 1, .obj dd t :: r.2), by simp [Habits.findMigrate, hd, hr],
          by simp [hlen]⟩
    | .str s =>
      by_cases hd : s = d
      · exact ⟨(0, .obj (some d) none :: rest), by simp [Habits.findMigrate, hd], by simp⟩
      · have hrest : rest.any (Habits.ciMatches d) = true := by
          simpa [Habits.ciMatches, hd] using h
        obtain ⟨r, hr, hlen⟩ := ih hrest
        exact ⟨(r.1 + 1, .str s :: r.2), by simp [Habits.findMigrate, hd, hr],
          by simp [hlen]⟩

/-- When an entry for the date already exists, the check-in update keeps
the length of the check-in list: the entry is overwritten or kept, never
duplicated. -/
theorem applyCheckIn_length (cs : List CheckIn) (tt : Bool) (d : String) (ts : Option ℚ)
    (h : cs.any (Habits.ciMatches d) = true) :
    (Habits.applyCheckIn cs tt d ts).length = cs.length := by
  obtain ⟨r, hr, hlen⟩ := findMigrate_some_length d cs h
  unfold Habits.applyCheckIn
  rw [hr]
  by_cases hc : ts.isSome = true ∧ tt = true
  · simp [hc, List.length_mergeSort, hlen]
  · simp [hc, List.length_mergeSort, hlen]

end CheckInLemmas

/-- C8: check-in is idempotent per date. Whenever every stored habit with
the targeted id already holds a check-in entry matching the given date (as
a dict with that date or as a legacy string), running check_in_habit leaves
the length of the check-in list of every habit unchanged: the existing
entry is overwritten or kept, never duplicated. -/
theorem C8_check_in_idempotent (habits : List Habit) (habit_id : Int) (d : String)
    (ts : Option ℚ)
    (h : ∀ hb ∈ habits, hb.id = habit_id → hb.check_ins.any (Habits.ciMatches d) = true) :
    (Habits.check_in_habit habits habit_id d ts).1.map (fun hb => hb.check_ins.length)
      = habits.map (fun hb => hb.check_ins.length) := by
  induction habits with
  | nil => rfl
  | cons hb rest ih =>
    simp only [Habits.check_in_habit]
    by_cases hid : hb.id = habit_id
    · rw [if_pos hid]
      simp only [List.map_cons]
      rw [applyCheckIn_length _ _ _ _ (h hb (by simp) hid)]
    · rw [if_neg hid]
      simp only [List.map_cons]
      rw [ih (fun x hx hxid => h x (by simp [hx]) hxid)]

/-- Witness for C8 at a habit that already has a dict check-in for the
requested date. -/
theorem C8_check_in_idempotent_witness :
    (Habits.check_in_habit [demoHabitObj] 1 "2024-01-01" none).1.map
        (fun hb => hb.check_ins.length)
      = [demoHabitObj].map (fun hb => hb.check_ins.length) :=
  C8_check_in_idempotent [demoHabitObj] 1 "2024-01-01" none (by decide)

/-- C9: updating with goal_id=None never unlinks. For every stored task
list and habit list and every choice of the other optional arguments,
update_task and update_habit called with goal_id=None leave the goal_id of
every stored record exactly as it was. -/
theorem C9_update_none_preserves_goal_id
    (tasks : List TaskRec) (task_id : Int)
    (title description priority due_date : Option String)
    (habits : List Habit) (habit_id : Int)
    (htitle hdescription hpriority hfrequency : Option String)
    (track_time : Option Bool) :
    (Todo.update_task tasks task_id title description priority due_date none).1.map
        TaskRec.goal_id = tasks.map TaskRec.goal_id ∧
    (Habits.update_habit habits habit_id htitle hdescription hpriority hfrequency none
        track_time).1.map Habit.goal_id = habits.map Habit.goal_id := by
  constructor
  · induction tasks with
    | nil => rfl
    | cons t rest ih =>
      simp only [Todo.update_task]
      by_cases h : t.id = task_id
      · simp [h]
      · simp [h, ih]
  · induction habits with
    | nil => rfl
    | cons hb rest ih =>
      simp only [Habits.update_habit]
      by_cases h : hb.id = habit_id
      · simp [h]
      · simp [h, ih]

/-- C1: the habit analytics aggregation raises instead of returning. On a
habit store holding a single habit whose check-in list contains the
canonical dict entry written by check_in_habit, get_analytics reaches the
week-activity comparison of a dict with the week_ago string and raises a
TypeError, so no report is produced. -/
theorem C1_get_analytics_raises :
    AnalyticsMod.get_analytics [demoHabitObj] [] "2024-01-02" "2023-12-26" noParse 0
      = .error .typeError := by
  rfl

/-- C4 counterexample: delete_goal removes goal 1, yet the habit that
referenced goal 1 still carries goal_id = 1 afterwards, because the cascade
of goals.py lines 120-126 rewrites the task store only and never opens the
habit store. -/
theorem C4_counterexample :
    (GoalsMod.delete_goal demoStores 1).1.goals = [] ∧
    (GoalsMod.delete_goal demoStores 1).1.habits.map Habit.goal_id = [some 1] := by
  constructor <;> rfl

/-- C4 (amended): after delete_goal runs, no stored task still carries the
deleted goal id — every task that referenced it has goal_id cleared to
None — but the habit store is returned untouched, so habits keep any
reference to the deleted goal. -/
theorem C4_delete_goal_cascade (st : GoalsMod.Stores) (gid : Int) :
    (∀ t ∈ (GoalsMod.delete_goal st gid).1.tasks, t.goal_id ≠ some gid) ∧
    (GoalsMod.delete_goal st gid).1.habits = st.habits := by
  constructor
  · intro t ht
    simp only [GoalsMod.delete_goal, List.mem_map] at ht
    obtain ⟨t0, _, rfl⟩ := ht
    by_cases h : t0.goal_id = some gid <;> simp [h]
  · rfl

/-- Witness for C4 on a store holding one task linked to goal 1. -/
theorem C4_delete_goal_cascade_witness :
    ({ demoLinkedTaskRec with goal_id := none } : TaskRec).goal_id ≠ some 1 ∧
    (GoalsMod.delete_goal demoStoresB 1).1.habits = demoStoresB.habits :=
  ⟨(C4_delete_goal_cascade demoStoresB 1).1 _ (by decide),
   (C4_delete_goal_cascade demoStoresB 1).2⟩

/-- C5 counterexample: on a single habit with one check-in the habit
aggregator reports completed = 1 (the check-in count) and incomplete = 1
(the habit count), so completed + incomplete = 2 differs from total = 1. -/
theorem C5_counterexample :
    ((AnalyticsMod.overallStats [demoHabitStr]).completed : Int)
        + (AnalyticsMod.overallStats [demoHabitStr]).incomplete
      ≠ ((AnalyticsMod.overallStats [demoHabitStr]).total : Int) := by
  decide

/-- C5 (amended): the overall slice of the task aggregator satisfies
completed + incomplete = total on every input (empty or not); the overall
slice of the habit aggregator instead satisfies completed + incomplete =
total check-ins + habit count, so the original identity holds for habits
only when no check-in exists. -/
theorem C5_overall_identity (tasks : List MTask) (categories : List String)
    (goals : List Goal) (parse : String → Option ℚ) (now : ℚ) (habits : List Habit) :
    (((MainApp.get_analytics tasks categories goals parse now).overall.completed : Int)
        + (MainApp.get_analytics tasks categories goals parse now).overall.incomplete
      = ((MainApp.get_analytics tasks categories goals parse now).overall.total : Int)) ∧
    (((AnalyticsMod.overallStats habits).completed : Int)
        + (AnalyticsMod.overallStats habits).incomplete
      = (AnalyticsMod.totalCheckIns habits : Int) + (habits.length : Int)) := by
  constructor
  · show ((MainApp.mkTaskStats tasks).completed : Int) + (MainApp.mkTaskStats tasks).incomplete
      = ((MainApp.mkTaskStats tasks).total : Int)
    simp only [MainApp.mkTaskStats]
    ring
  · simp only [AnalyticsMod.overallStats]

/-- C3 counterexample: after adding two tasks, deleting task 1 and adding a
third task, the store holds two records that both carry id 2 — the new id
len+1 equals the id of the surviving record, so an id is reused after a
deletion. -/
theorem C3_counterexample :
    (Todo.runOps demoOps).map TaskRec.id = [2, 2] := by
  decide

section IdLemmas

/-- Invariant of an add-only run: the stored ids are exactly 1..n in order. -/
def idsCanonical (s : List TaskRec) : Prop :=
  s.map TaskRec.id = (List.range s.length).map (fun i : ℕ => (i : Int) + 1)

/-- Add operations preserve the canonical id layout. -/
theorem applyOp_add_canonical (s : List TaskRec) (op : Todo.Op) (hop : op.isAdd = true)
    (hs : idsCanonical s) : idsCanonical (Todo.applyOp s op) := by
  match op with
  | .del _ => simp [Todo.Op.isAdd] at hop
  | .add title description priority due_date goal_id now =>
    unfold idsCanonical at hs ⊢
    simp only [Todo.applyOp, Todo.add_task, List.map_append, List.length_append,
      List.map_cons, List.map_nil, List.length_cons, List.length_nil]
    rw [hs]
    rw [show s.length + (0 + 1) = s.length + 1 by omega, List.range_succ]
    simp

/-- After any add-only operation sequence the stored ids are 1..n. -/
theorem runOps_adds_canonical (ops : List Todo.Op)
    (hadds : ∀ op ∈ ops, op.isAdd = true) : idsCanonical (Todo.runOps ops) := by
  unfold Todo.runOps
  exact foldl_inv Todo.applyOp idsCanonical ops [] (by simp [idsCanonical])
    (fun s' op hop hP => applyOp_add_canonical s' op (hadds op hop) hP)

end IdLemmas

/-- C3 (amended): the id assigned by add_task, add_habit and add_goal is
always one greater than the current record count (len + 1), not one greater
than the maximum existing id; for add-only histories the two coincide and
all stored ids are distinct, but after a deletion the next assigned id can
collide with a surviving record (see the counterexample). -/
theorem C3_id_assignment
    (tasks : List TaskRec) (title description priority due_date : String)
    (goal_id : Option Int) (now : String)
    (habits : List Habit) (frequency : String) (track_time : Bool)
    (goals : List Goal) (ops : List Todo.Op)
    (hadds : ∀ op ∈ ops, op.isAdd = true) :
    (Todo.add_task tasks title description priority due_date goal_id now).2.id
        = (tasks.length : Int) + 1 ∧
    (Habits.add_habit habits title description priority frequency goal_id track_time
        now).2.id = (habits.length : Int) + 1 ∧
    (GoalsMod.add_goal goals title description now).2.id = (goals.length : Int) + 1 ∧
    ((Todo.runOps ops).map TaskRec.id).Nodup := by
  refine ⟨rfl, rfl, rfl, ?_⟩
  rw [runOps_adds_canonical ops hadds]
  have hinj : Function.Injective (fun i : ℕ => (i : Int) + 1) := by
    intro a b hab
    simpa using hab
  exact (List.nodup_range _).map hinj

/-- Witness for C3 on concrete stores and a two-add history. -/
theorem C3_id_assignment_witness :
    (Todo.add_task [] "a" "" "Next" "" none "t").2.id = (([] : List TaskRec).length : Int) + 1 ∧
    (Habits.add_habit [] "a" "" "Next" "daily" none false "t").2.id
        = (([] : List Habit).length : Int) + 1 ∧
    (GoalsMod.add_goal [] "a" "" "t").2.id = (([] : List Goal).length : Int) + 1 ∧
    ((Todo.runOps demoAddOps).map TaskRec.id).Nodup :=
  C3_id_assignment [] "a" "" "Next" "" none "t" [] "daily" false [] demoAddOps (by decide)

/-- C6 counterexample: the overall completion_percentage of the habit
aggregator is the average check-in count per habit, which exceeds 100 for a
habit with 101 check-ins. -/
theorem C6_counterexample :
    100 < (AnalyticsMod.overallStats [bigHabit]).completion_percentage := by
  with_unfolding_all decide

section PctLemmas

/-- Percentage bounds of the shared task group statistics. -/
theorem mkTaskStats_bounds (ts : List MTask) :
    0 ≤ (MainApp.mkTaskStats ts).completion_percentage ∧
    (MainApp.mkTaskStats ts).completion_percentage ≤ 100 ∧
    ((MainApp.mkTaskStats ts).total = 0 →
      (MainApp.mkTaskStats ts).completion_percentage = 0) := by
  have hct : (ts.filter (fun t => t.completed)).length ≤ ts.length :=
    List.length_filter_le _ _
  simpa [MainApp.mkTaskStats] using pct_expr_bounds _ _ hct

/-- Every entry of the priority slice of the task aggregator satisfies the
percentage bounds. -/
theorem priorityStats_bounds (tasks : List MTask) :
    ∀ kv ∈ MainApp.priorityStats tasks,
      0 ≤ kv.2.completion_percentage ∧ kv.2.completion_percentage ≤ 100 ∧
      (kv.2.total = 0 → kv.2.completion_percentage = 0) := by
  unfold MainApp.priorityStats
  refine foldl_inv _
    (fun acc : List (String × GroupStats) => ∀ kv ∈ acc,
      0 ≤ kv.2.completion_percentage ∧ kv.2.completion_percentage ≤ 100 ∧
      (kv.2.total = 0 → kv.2.completion_percentage = 0))
    _ [] (by simp) ?_
  intro acc p _ hacc
  exact upsert_forall _ p _ acc (mkTaskStats_bounds _) hacc

/-- Every entry of the goal slice of the task aggregator satisfies the
percentage bounds. -/
theorem byGoalStats_bounds (tasks : List MTask) (goals : List Goal) :
    ∀ kv ∈ (MainApp.byGoalStats tasks goals).goals,
      0 ≤ kv.2.completion_percentage ∧ kv.2.completion_percentage ≤ 100 ∧
      (kv.2.total = 0 → kv.2.completion_percentage = 0) := by
  unfold MainApp.byGoalStats
  simp only
  refine foldl_inv _
    (fun acc : List (Int × GoalStats) × Nat => ∀ kv ∈ acc.1,
      0 ≤ kv.2.completion_percentage ∧ kv.2.completion_percentage ≤ 100 ∧
      (kv.2.total = 0 → kv.2.completion_percentage = 0))
    goals ([], 0) (by simp) ?_
  intro acc g _ hacc
  refine upsert_forall _ g.id _ acc.1 ?_ hacc
  have hct : ((tasks.filter (fun t => decide (t.goal_id = some g.id))).filter
      (fun t => t.completed)).length
      ≤ (tasks.filter (fun t => decide (t.goal_id = some g.id))).length :=
    List.length_filter_le _ _
  simpa using pct_expr_bounds _ _ hct

end PctLemmas

/-- C6 (amended): for the task aggregator every completion_percentage field
of the overall, priority and goal slices lies in [0, 100] and equals 0 when
the group total is 0 (no division by zero occurs). For the habit
aggregator the field is the average check-in count per habit: it is
nonnegative and 0 on an empty store but has no upper bound (see the
counterexample at 101 check-ins). -/
theorem C6_percentage_range (tasks : List MTask) (categories : List String)
    (goals : List Goal) (parse : String → Option ℚ) (now : ℚ) (habits : List Habit)
    (kv : String × GroupStats)
    (hkv : kv ∈ (MainApp.get_analytics tasks categories goals parse now).by_priority)
    (gv : Int × GoalStats)
    (hgv : gv ∈ (MainApp.get_analytics tasks categories goals parse now).by_goal.goals) :
    (0 ≤ (MainApp.get_analytics tasks categories goals parse now).overall.completion_percentage ∧
      (MainApp.get_analytics tasks categories goals parse now).overall.completion_percentage ≤ 100 ∧
      ((MainApp.get_analytics tasks categories goals parse now).overall.total = 0 →
        (MainApp.get_analytics tasks categories goals parse now).overall.completion_percentage = 0)) ∧
    (0 ≤ kv.2.completion_percentage ∧ kv.2.completion_percentage ≤ 100 ∧
      (kv.2.total = 0 → kv.2.completion_percentage = 0)) ∧
    (0 ≤ gv.2.completion_percentage ∧ gv.2.completion_percentage ≤ 100 ∧
      (gv.2.total = 0 → gv.2.completion_percentage = 0)) ∧
    (0 ≤ (AnalyticsMod.overallStats habits).completion_percentage ∧
      ((AnalyticsMod.overallStats habits).total = 0 →
        (AnalyticsMod.overallStats habits).completion_percentage = 0)) := by
  refine ⟨mkTaskStats_bounds tasks, priorityStats_bounds tasks kv hkv,
    byGoalStats_bounds tasks goals gv hgv, ?_, ?_⟩
  · have havg : (0 : ℚ) ≤
        (if 0 < habits.length then
          (AnalyticsMod.totalCheckIns habits : ℚ) / (habits.length : ℚ) else 0) := by
      by_cases h : 0 < habits.length
      · simp only [if_pos h]
        positivity
      · simp [h]
    simpa [AnalyticsMod.overallStats] using round2_nonneg _ havg
  · intro h0
    have hlen : habits.length = 0 := by
      simpa [AnalyticsMod.overallStats] using h0
    simp [AnalyticsMod.overallStats, hlen, round2_zero]

/-- Witness for C6 at an empty task store, one goal, and the Now priority
entry. -/
theorem C6_percentage_range_witness :
    (0 ≤ (MainApp.get_analytics [] [] [demoGoal] noParse 0).overall.completion_percentage ∧
      (MainApp.get_analytics [] [] [demoGoal] noParse 0).overall.completion_percentage ≤ 100 ∧
      ((MainApp.get_analytics [] [] [demoGoal] noParse 0).overall.total = 0 →
        (MainApp.get_analytics [] [] [demoGoal] noParse 0).overall.completion_percentage = 0)) ∧
    (0 ≤ (("Now", ⟨0, 0, 0, 0⟩) : String × GroupStats).2.completion_percentage ∧
      (("Now", ⟨0, 0, 0, 0⟩) : String × GroupStats).2.completion_percentage ≤ 100 ∧
      ((("Now", ⟨0, 0, 0, 0⟩) : String × GroupStats).2.total = 0 →
        (("Now", ⟨0, 0, 0, 0⟩) : String × GroupStats).2.completion_percentage = 0)) ∧
    (0 ≤ ((1, ⟨"health", 0, 0, 0, 0⟩) : Int × GoalStats).2.completion_percentage ∧
      ((1, ⟨"health", 0, 0, 0, 0⟩) : Int × GoalStats).2.completion_percentage ≤ 100 ∧
      (((1, ⟨"health", 0, 0, 0, 0⟩) : Int × GoalStats).2.total = 0 →
        ((1, ⟨"health", 0, 0, 0, 0⟩) : Int × GoalStats).2.completion_percentage = 0)) ∧
    (0 ≤ (AnalyticsMod.overallStats []).completion_percentage ∧
      ((AnalyticsMod.overallStats []).total = 0 →
        (AnalyticsMod.overallStats []).completion_percentage = 0)) :=
  C6_percentage_range [] [] [demoGoal] noParse 0 []
    ("Now", ⟨0, 0, 0, 0⟩) (by with_unfolding_all decide)
    (1, ⟨"health", 0, 0, 0, 0⟩) (by with_unfolding_all decide)

/-- C2 counterexample: one task whose goal_id references the nonexistent
goal 1 against an empty goal store is counted neither in withGoal (no goal
group exists) nor in withoutGoal (its goal_id is truthy), so the two
counters sum to 0 while overall.total is 1. -/
theorem C2_counterexample :
    (MainApp.get_analytics [demoDanglingTask] [] [] noParse 0).by_goal.tasks_with_goals
        + (MainApp.get_analytics [demoDanglingTask] [] [] noParse 0).by_goal.tasks_without_goals
      ≠ (MainApp.get_analytics [demoDanglingTask] [] [] noParse 0).overall.total := by
  decide

section GoalCountLemmas

/-- Number of records whose goal_id field (read through the given accessor)
references the given goal. -/
def refCountBy {α : Type} (gid : α → Option Int) (recs : List α) (g : Goal) : Nat :=
  (recs.filter (fun r => decide (gid r = some g.id))).length

/-- The tasks_with_goals accumulator of the task goal loop sums the group
sizes over the stored goals. -/
theorem byGoal_snd (tasks : List MTask) :
    ∀ (goals : List Goal) (p : List (Int × GoalStats) × Nat),
      (goals.foldl (MainApp.byGoalStep tasks) p).2
        = p.2 + (goals.map (refCountBy MTask.goal_id tasks)).sum := by
  intro goals
  induction goals with
  | nil => intro p; simp
  | cons g gs ih =>
    intro p
    simp only [List.foldl_cons, List.map_cons, List.sum_cons]
    rw [ih (MainApp.byGoalStep tasks p g)]
    simp only [MainApp.byGoalStep, refCountBy]
    omega

/-- The habits-with-goals accumulator of the habit goal loop sums the group
sizes over the stored goals. -/
theorem hByGoal_snd (habits : List Habit) :
    ∀ (goals : List Goal) (p : List (Int × GoalStats) × Nat),
      (goals.foldl (AnalyticsMod.byGoalStep habits) p).2
        = p.2 + (goals.map (refCountBy Habit.goal_id habits)).sum := by
  intro goals
  induction goals with
  | nil => intro p; simp
  | cons g gs ih =>
    intro p
    simp only [List.foldl_cons, List.map_cons, List.sum_cons]
    rw [ih (AnalyticsMod.byGoalStep habits p g)]
    simp only [AnalyticsMod.byGoalStep, refCountBy]
    omega

/-- Double counting: summing per-goal group sizes over the goals equals
summing, over the records, the number of goals each record references. -/
theorem sum_refCount_swap {α : Type} (gid : α → Option Int) (recs : List α) :
    ∀ goals : List Goal,
      (goals.map (refCountBy gid recs)).sum
        = (recs.map (fun r =>
            (goals.filter (fun g => decide (gid r = some g.id))).length)).sum := by
  intro goals
  induction goals with
  | nil => simp
  | cons g gs ih =>
    simp only [List.map_cons, List.sum_cons, ih]
    have hpt : ∀ r ∈ recs,
        (List.filter (fun g' => decide (gid r = some g'.id)) (g :: gs)).length
          = (if decide (gid r = some g.id) then 1 else 0)
            + (List.filter (fun g' => decide (gid r = some g'.id)) gs).length := by
      intro r _
      by_cases h : gid r = some g.id <;> simp [List.filter_cons, h, Nat.add_comm]
    rw [List.map_eq_map_iff.mpr hpt, List.sum_map_add]
    rw [← length_filter_eq_sum_ite (fun r => decide (gid r = some g.id)) recs]
    rfl

/-- With pairwise distinct goal ids, a record referencing a stored goal
references exactly one stored goal. -/
theorem filter_id_eq_one {v : Int} :
    ∀ goals : List Goal, (goals.map Goal.id).Nodup → ∀ g0 ∈ goals, g0.id = v →
      (goals.filter (fun g => decide (v = g.id))).length = 1 := by
  intro goals
  induction goals with
  | nil => intro _ g0 hg0; simp at hg0
  | cons g gs ih =>
    intro hnd g0 hg0 hv
    rw [List.map_cons, List.nodup_cons] at hnd
    obtain ⟨hnd1, hnd2⟩ := hnd
    rcases List.mem_cons.mp hg0 with h0 | h0
    · subst h0
      have hz : (gs.filter (fun g' => decide (v = g'.id))).length = 0 := by
        rw [List.length_eq_zero, List.filter_eq_nil_iff]
        intro g' hg'
        simp only [decide_eq_true_eq]
        intro hvg
        exact hnd1 (by rw [hv, hvg]; exact List.mem_map_of_mem Goal.id hg')
      simp [List.filter_cons, hv, hz]
    · have hne : ¬ (v = g.id) := by
        intro hvg
        exact hnd1 (by rw [← hvg, ← hv]; exact List.mem_map_of_mem Goal.id h0)
      simp only [List.filter_cons, hne, decide_eq_true_eq, if_false]
      simpa [hne] using ih hnd2 g0 h0 hv

/-- Under the write-time invariants (distinct positive goal ids, every
truthy reference resolving), a goal_id value references exactly one stored
goal when truthy and none when falsy. -/
theorem inner_count_value (goals : List Goal) (hids : (goals.map Goal.id).Nodup)
    (hpos : ∀ g ∈ goals, 0 < g.id) (o : Option Int)
    (href : falsyOptInt o = false → ∃ g ∈ goals, o = some g.id) :
    (goals.filter (fun g => decide (o = some g.id))).length
      = if falsyOptInt o then 0 else 1 := by
  by_cases hf : falsyOptInt o = true
  · rw [if_pos hf]
    rw [List.length_eq_zero, List.filter_eq_nil_iff]
    intro g hg
    have hgid := hpos g hg
    simp only [decide_eq_true_eq]
    cases ht : o with
    | none => simp
    | some v =>
      have hv0 : v = 0 := by simpa [falsyOptInt, ht] using hf
      simp only [Option.some.injEq]
      omega
  · have hf' : falsyOptInt o = false := by simpa using hf
    rw [if_neg (by simp [hf'])]
    obtain ⟨g0, hg0, hv⟩ := href hf'
    have : (goals.filter (fun g => decide (o = some g.id)))
        = (goals.filter (fun g => decide (g0.id = g.id))) := by
      apply List.filter_congr
      intro g _
      rw [hv]
      simp
    rw [this]
    exact filter_id_eq_one goals hids g0 hg0 rfl

/-- Partition of a record count into truthy and falsy goal references. -/
theorem sum_ite_falsy {α : Type} (gid : α → Option Int) : ∀ recs : List α,
    (recs.map (fun r => if falsyOptInt (gid r) then 0 else 1)).sum
      + (recs.filter (fun r => falsyOptInt (gid r))).length = recs.length := by
  intro recs
  induction recs with
  | nil => rfl
  | cons r rest ih =>
    by_cases h : falsyOptInt (gid r) <;>
      simp [List.filter_cons, h] <;> omega

/-- Core of the by-goal partition identity, for any record type carrying an
optional integer goal reference: under the write-time invariants the
per-goal group sizes and the falsy-reference count partition the records. -/
theorem goal_partition_core {α : Type} (gid : α → Option Int) (recs : List α)
    (goals : List Goal) (hids : (goals.map Goal.id).Nodup)
    (hpos : ∀ g ∈ goals, 0 < g.id)
    (href : ∀ r ∈ recs, falsyOptInt (gid r) = false →
      ∃ g ∈ goals, gid r = some g.id) :
    (goals.map (refCountBy gid recs)).sum
      + (recs.filter (fun r => falsyOptInt (gid r))).length = recs.length := by
  have h2 : (goals.map (refCountBy gid recs)).sum
      = (recs.map (fun r => if falsyOptInt (gid r) then 0 else 1)).sum := by
    rw [sum_refCount_swap gid recs goals]
    apply congrArg List.sum
    apply List.map_eq_map_iff.mpr
    intro r hr
    exact inner_count_value goals hids hpos (gid r) (href r hr)
  rw [h2]
  exact sum_ite_falsy gid recs

end GoalCountLemmas

/-- C2 (amended): withGoal + withoutGoal = overall.total holds, for both the
task aggregator of main.py and the habit aggregator of analytics.py,
whenever the goal store satisfies its write-time invariants — distinct
positive goal ids and every truthy record goal_id resolving to a stored
goal. A dangling reference breaks the identity because the record is
counted in neither bucket: exclusion from withoutGoal is decided purely by
goal_id truthiness while inclusion in withGoal requires the referenced goal
to exist. -/
theorem C2_goal_partition (tasks : List MTask) (categories : List String)
    (goals : List Goal) (parse : String → Option ℚ) (now : ℚ) (habits : List Habit)
    (hids : (goals.map Goal.id).Nodup)
    (hpos : ∀ g ∈ goals, 0 < g.id)
    (href : ∀ t ∈ tasks, falsyOptInt t.goal_id = false →
      ∃ g ∈ goals, t.goal_id = some g.id)
    (hhref : ∀ hb ∈ habits, falsyOptInt hb.goal_id = false →
      ∃ g ∈ goals, hb.goal_id = some g.id) :
    ((MainApp.get_analytics tasks categories goals parse now).by_goal.tasks_with_goals
        + (MainApp.get_analytics tasks categories goals parse now).by_goal.tasks_without_goals
      = (MainApp.get_analytics tasks categories goals parse now).overall.total) ∧
    ((AnalyticsMod.byGoalStats habits goals).tasks_with_goals
        + (AnalyticsMod.byGoalStats habits goals).tasks_without_goals
      = (AnalyticsMod.overallStats habits).total) := by
  constructor
  · show (MainApp.byGoalStats tasks goals).tasks_with_goals
        + (MainApp.byGoalStats tasks goals).tasks_without_goals
      = (MainApp.mkTaskStats tasks).total
    have h1 : (MainApp.byGoalStats tasks goals).tasks_with_goals
        = (goals.map (refCountBy MTask.goal_id tasks)).sum := by
      simp only [MainApp.byGoalStats]
      rw [byGoal_snd tasks goals ([], 0)]
      simp
    have h3 : (MainApp.byGoalStats tasks goals).tasks_without_goals
        = (tasks.filter (fun t => falsyOptInt t.goal_id)).length := rfl
    have h4 : (MainApp.mkTaskStats tasks).total = tasks.length := rfl
    rw [h1, h3, h4]
    exact goal_partition_core MTask.goal_id tasks goals hids hpos href
  · have h1 : (AnalyticsMod.byGoalStats habits goals).tasks_with_goals
        = (goals.map (refCountBy Habit.goal_id habits)).sum := by
      simp only [AnalyticsMod.byGoalStats]
      rw [hByGoal_snd habits goals ([], 0)]
      simp
    have h3 : (AnalyticsMod.byGoalStats habits goals).tasks_without_goals
        = (habits.filter (fun hb => falsyOptInt hb.goal_id)).length := rfl
    have h4 : (AnalyticsMod.overallStats habits).total = habits.length := rfl
    rw [h1, h3, h4]
    exact goal_partition_core Habit.goal_id habits goals hids hpos hhref

/-- Witness for C2 on a store with one goal, one linked task, one unlinked
task, one linked habit and one unlinked habit. -/
theorem C2_goal_partition_witness :
    ((MainApp.get_analytics [demoLinkedTask, demoFreeTask] [] [demoGoal] noParse
          0).by_goal.tasks_with_goals
        + (MainApp.get_analytics [demoLinkedTask, demoFreeTask] [] [demoGoal] noParse
          0).by_goal.tasks_without_goals
      = (MainApp.get_analytics [demoLinkedTask, demoFreeTask] [] [demoGoal] noParse
          0).overall.total) ∧
    ((AnalyticsMod.byGoalStats [demoLinkedHabit, demoHabitStr] [demoGoal]).tasks_with_goals
        + (AnalyticsMod.byGoalStats [demoLinkedHabit, demoHabitStr]
          [demoGoal]).tasks_without_goals
      = (AnalyticsMod.overallStats [demoLinkedHabit, demoHabitStr]).total) :=
  C2_goal_partition [demoLinkedTask, demoFreeTask] [] [demoGoal] noParse 0
    [demoLinkedHabit, demoHabitStr] (by decide) (by decide) (by decide) (by decide)

/-- C7 counterexample: when no habit tracks time the early return of
get_time_analytics produces an empty trend series, not the fixed 30-point
daily window the claim requires for every input. -/
theorem C7_counterexample :
    (AnalyticsMod.get_time_analytics [] [] "daily" 0 0 noParseDate blankIso
      idKey).trends.length ≠ 30 := by
  decide

section TrendLemmas

/-- A check-in without a truthy time_spent leaves the time accumulator
unchanged. -/
theorem processCheckIn_fixed (parseDate : String → Option Int) (monthKeyOf : Int → Int)
    (p : ℚ × AnalyticsMod.GAcc) (c : CheckIn) (h : AnalyticsMod.hasTime c = false) :
    AnalyticsMod.processCheckIn parseDate monthKeyOf p c = p := by
  cases c with
  | str s => rfl
  | obj d ts =>
    have hts : truthyOptQ ts = false := by simpa [AnalyticsMod.hasTime] using h
    simp [AnalyticsMod.processCheckIn, hts]

/-- A habit none of whose check-ins carries time leaves the accumulator
unchanged. -/
theorem processHabit_fixed (goals : List Goal) (parseDate : String → Option Int)
    (monthKeyOf : Int → Int) (g : AnalyticsMod.GAcc) (hb : Habit)
    (hc : ∀ c ∈ hb.check_ins, AnalyticsMod.hasTime c = false) :
    AnalyticsMod.processHabit goals parseDate monthKeyOf g hb = g := by
  have hfold : hb.check_ins.foldl (AnalyticsMod.processCheckIn parseDate monthKeyOf)
      (0, g) = (0, g) :=
    foldl_fixed _ _ (fun p c hcmem => processCheckIn_fixed _ _ p c (hc c hcmem)) (0, g)
  simp [AnalyticsMod.processHabit, hfold]

/-- When no tracked habit records any time, the whole per-habit fold leaves
every bucket at its initial zero. -/
theorem gacc_fixed (habits : List Habit) (goals : List Goal)
    (parseDate : String → Option Int) (monthKeyOf : Int → Int)
    (h : ∀ hb ∈ habits, hb.track_time = true →
      ∀ c ∈ hb.check_ins, AnalyticsMod.hasTime c = false) :
    (habits.filter (fun hb => hb.track_time)).foldl
        (AnalyticsMod.processHabit goals parseDate monthKeyOf) AnalyticsMod.initGAcc
      = AnalyticsMod.initGAcc := by
  apply foldl_fixed
  intro g hb hmem
  rw [List.mem_filter] at hmem
  exact processHabit_fixed goals parseDate monthKeyOf g hb (h hb hmem.1 hmem.2)

end TrendLemmas

/-- C7 (amended): whenever at least one habit tracks time, the trend series
has exactly 30 points for "daily", 12 for "weekly" and 12 for the monthly
fallback, the monthly buckets stepping by 30-day multiples from the first
of the current month; and when the tracked habits carry no recorded time
every emitted point has 0 hours (no point is omitted). When no habit
tracks time, however, the function takes its early return and the trend
series is empty (see the counterexample). -/
theorem C7_trend_series (habits : List Habit) (goals : List Goal)
    (today firstOfMonth : Int) (parseDate : String → Option Int)
    (isoOf : Int → String) (monthKeyOf : Int → Int)
    (hne : habits.filter (fun h => h.track_time) ≠ []) :
    (AnalyticsMod.get_time_analytics habits goals "daily" today firstOfMonth parseDate
      isoOf monthKeyOf).trends.length = 30 ∧
    (AnalyticsMod.get_time_analytics habits goals "weekly" today firstOfMonth parseDate
      isoOf monthKeyOf).trends.length = 12 ∧
    (AnalyticsMod.get_time_analytics habits goals "monthly" today firstOfMonth parseDate
      isoOf monthKeyOf).trends.length = 12 ∧
    ((∀ hb ∈ habits, hb.track_time = true →
        ∀ c ∈ hb.check_ins, AnalyticsMod.hasTime c = false) →
      ∀ period : String,
        ∀ pt ∈ (AnalyticsMod.get_time_analytics habits goals period today firstOfMonth
          parseDate isoOf monthKeyOf).trends, pt.time = 0) := by
  refine ⟨?_, ?_, ?_, ?_⟩
  · simp [AnalyticsMod.get_time_analytics, hne]
  · simp [AnalyticsMod.get_time_analytics, hne]
  · simp [AnalyticsMod.get_time_analytics, hne]
  · intro hall period pt hpt
    have hg := gacc_fixed habits goals parseDate monthKeyOf hall
    simp only [AnalyticsMod.get_time_analytics, if_neg hne, hg] at hpt
    split at hpt
    · obtain ⟨i, _, rfl⟩ := List.mem_map.mp hpt
      simp [AnalyticsMod.TrendPoint.time, AnalyticsMod.initGAcc]
    · split at hpt
      · obtain ⟨i, _, rfl⟩ := List.mem_map.mp hpt
        simp [AnalyticsMod.TrendPoint.time, AnalyticsMod.initGAcc]
      · obtain ⟨i, _, rfl⟩ := List.mem_map.mp hpt
        simp [AnalyticsMod.TrendPoint.time, AnalyticsMod.initGAcc]

/-- Witness for C7 on a single time-tracking habit with no recorded time. -/
theorem C7_trend_series_witness :
    (AnalyticsMod.get_time_analytics [demoTrackedHabit] [] "daily" 739000 738990
      noParseDate blankIso idKey).trends.length = 30 ∧
    AnalyticsMod.TrendPoint.time (.daily "" 0) = 0 :=
  ⟨(C7_trend_series [demoTrackedHabit] [] 739000 738990 noParseDate blankIso idKey
      (by decide)).1,
   (C7_trend_series [demoTrackedHabit] [] 739000 738990 noParseDate blankIso idKey
      (by decide)).2.2.2 (by decide) "daily" (.daily "" 0)
      (by with_unfolding_all decide)⟩

/-- C10: every period other than "daily" and "weekly" — "monthly",
"yearly", the empty string, anything — lands in the final else branch, so
get_time_analytics silently produces the monthly trend series instead of
rejecting the input. -/
theorem C10_period_fallback (habits : List Habit) (goals : List Goal) (period : String)
    (today firstOfMonth : Int) (parseDate : String → Option Int)
    (isoOf : Int → String) (monthKeyOf : Int → Int)
    (h1 : period ≠ "daily") (h2 : period ≠ "weekly") :
    AnalyticsMod.get_time_analytics habits goals period today firstOfMonth parseDate
        isoOf monthKeyOf
      = AnalyticsMod.get_time_analytics habits goals "monthly" today firstOfMonth
        parseDate isoOf monthKeyOf := by
  unfold AnalyticsMod.get_time_analytics
  by_cases he : habits.filter (fun h => h.track_time) = []
  · simp [he]
  · simp [he, h1, h2]

/-- Witness for C10 at the unsupported period string "yearly". -/
theorem C10_period_fallback_witness :
    AnalyticsMod.get_time_analytics [demoTrackedHabit] [] "yearly" 739000 738990
        noParseDate blankIso idKey
      = AnalyticsMod.get_time_analytics [demoTrackedHabit] [] "monthly" 739000 738990
        noParseDate blankIso idKey :=
  C10_period_fallback [demoTrackedHabit] [] "yearly" 739000 738990 noParseDate blankIso
    idKey (by decide) (by decide)
